import Mathlib

/-!
# Verification of the Pylot simulator core (`pylot/simulator.py`)

This file shallowly embeds the physics/render synchronization core of the
Pylot flight simulator and proves properties of it:

* the RK4 integrator `Simulator._RK4` (lines 481-514), including the exact
  sequence of intermediate assignments to `aircraft.y`;
* the shared 16-scalar state buffer (`self._state_manager`) together with the
  per-step publish sequence (lines 227-230) and the render-side reader;
* the render step `Simulator._update_graphics` (lines 317-439): the quit
  early-return, the all-zero sentinel check, the ground-contact check on
  `y[8]`, and the NaN check on `y[0]`;
* the inner control-polling loop of `Simulator._run_physics` (lines 234-257)
  with its pause/resume handling;
* the outer simulation loop (lines 204-260) with its termination condition
  and publish counting.

Modelling conventions:

* Python floats are read as exact rationals (`ℚ`), the standard idealization
  for numeric code.  The one place where binary64 rounding decides a claimed
  property - the number of iterations of the fixed-step loop with
  `dt = 0.01`, `final_time = 1.0` - is modelled with an explicit
  round-to-nearest-even binary64 model (`fl` below), exact for the normal
  floating-point range in which all values of that scenario live.
* Values that can be NaN (the published state scalars read back by the
  render process) use the type `FVal`, a rational extended with a NaN point
  whose comparisons follow IEEE semantics (every comparison with NaN is
  false).
* Core `Rat.add/sub/mul` are `@[irreducible]`, so the binary64 model is
  written with `Rat.divInt` over `.num`/`.den`, which the kernel can
  evaluate; `qadd_eq`/`qmul_eq` prove these helpers equal the ordinary
  field operations.
-/

namespace Pylot

/-- Addition on `ℚ` written via `Rat.divInt` so that the kernel can evaluate
it (`Rat.add` is irreducible); `qadd_eq` proves it is ordinary addition. -/
def qadd (a b : ℚ) : ℚ := Rat.divInt (a.num * b.den + b.num * a.den) (a.den * b.den)

/-- Multiplication on `ℚ` written via `Rat.divInt` so that the kernel can
evaluate it; `qmul_eq` proves it is ordinary multiplication. -/
def qmul (a b : ℚ) : ℚ := Rat.divInt (a.num * b.num) (a.den * b.den)

/-- Floor of base-2 logarithm on `ℕ`, by fuel recursion so that the kernel
can evaluate it (`Nat.log2` is defined by well-founded recursion). -/
def log2F : ℕ → ℕ → ℕ
  | 0, _ => 0
  | fuel+1, n => if 2 ≤ n then log2F fuel (n / 2) + 1 else 0

/-- `⌊log₂ n⌋` for `n` of at most 200 bits (ample for every value here). -/
def nlog2 (n : ℕ) : ℕ := log2F 200 n

/-- Round a nonnegative rational to the nearest integer, ties to even
(the IEEE-754 default rounding), computed on `.num`/`.den`. -/
def roundHalfEven (x : ℚ) : ℤ :=
  let n := x.num
  let d : ℤ := (x.den : ℤ)
  let f := n / d
  let r2 := 2 * (n - f * d)
  if r2 < d then f
  else if d < r2 then f + 1
  else if f % 2 = 0 then f else f + 1

/-- `2 ^ k` as a rational, for `k : ℤ`, via `Rat.divInt`. -/
def qpow2 (k : ℤ) : ℚ :=
  if 0 ≤ k then Rat.divInt (2 ^ k.toNat) 1 else Rat.divInt 1 (2 ^ (-k).toNat)

/-- `⌊log₂ x⌋` for a positive rational `x`. -/
def qexp2floor (x : ℚ) : ℤ :=
  let g : ℤ := (nlog2 x.num.natAbs : ℤ) - (nlog2 x.den : ℤ)
  if x < qpow2 g then g - 1 else g

/-- `m * 2 ^ e` as a rational. -/
def qofScaled (m : ℤ) (e : ℤ) : ℚ :=
  if 0 ≤ e then Rat.divInt (m * 2 ^ e.toNat) 1 else Rat.divInt m (2 ^ (-e).toNat)

/-- Binary64 rounding of a positive rational in the normal range: keep a
53-bit significand, round to nearest, ties to even. -/
def flPos (x : ℚ) : ℚ :=
  let e : ℤ := qexp2floor x - 52
  qofScaled (roundHalfEven (qmul x (qpow2 (-e)))) e

/-- Binary64 round-to-nearest-even of a rational (normal range; subnormals
and overflow never occur at the magnitudes used in this development). -/
def fl (x : ℚ) : ℚ :=
  if x = 0 then 0
  else if 0 < x then flPos x
  else - flPos (-x)

/-- IEEE binary64 addition: exact sum, then one rounding. This models the
Python statement `t += self._dt` on doubles. -/
def fladd (a b : ℚ) : ℚ := fl (qadd a b)

/-- The binary64 value of the Python literal `0.01`, the default fixed time
step (`simulator.py` line 45). -/
def dt64 : ℚ := fl (Rat.divInt 1 100)

/-- The exact decimal value of the literal `0.16666666666666666666667` on
line 514 of `simulator.py`. -/
def rk4CoefLiteral : ℚ := Rat.divInt 16666666666666666666667 100000000000000000000000

/-- The RK4 combination coefficient. The source writes the 23-digit decimal
literal `0.16666666666666666666667`, whose binary64 value is exactly the
binary64 value of `1/6` (theorem `rk4CoefLiteral_binary64` below), so under
the exact-arithmetic reading used here it denotes `1/6`. -/
def rk4Coef : ℚ := 1/6

/-- The 13-scalar rigid-body state vector `aircraft.y`: body-frame velocity
`u v w` (indices 0-2), body-frame angular rate `p q r` (3-5), inertial
position `x y z` (6-8), orientation quaternion `e0 e1 e2 e3` (9-12). -/
abbrev StateVec := Fin 13 → ℚ

/-- `Simulator._RK4` (lines 496-514): the final value assigned to
`aircraft.y`.  `dy_dt y t` is `aircraft.dy_dt(t)` evaluated while
`aircraft.y` holds `y`.  The numpy expressions `y0+0.5*dt*k0` etc. are
componentwise vector arithmetic; `0.5*dt*k0` is written
`((1/2) * dt) • k0` and the final line `y0+coef*(k0+2*k1+2*k2+k3)*dt` is
written `y0 + dt • (rk4Coef • (k0 + 2•k1 + 2•k2 + k3))`. -/
def RK4 (dy_dt : StateVec → ℚ → StateVec) (y : StateVec) (t dt : ℚ) : StateVec :=
  let y0 := y
  let k0 := dy_dt y0 t
  let k1 := dy_dt (y0 + ((1/2 : ℚ) * dt) • k0) (t + (1/2 : ℚ) * dt)
  let k2 := dy_dt (y0 + ((1/2 : ℚ) * dt) • k1) (t + (1/2 : ℚ) * dt)
  let k3 := dy_dt (y0 + dt • k2) (t + dt)
  y0 + dt • (rk4Coef • (k0 + (2 : ℚ) • k1 + (2 : ℚ) • k2 + k3))

/-- The successive values assigned to the caller's `aircraft.y` during
`Simulator._RK4`: lines 502, 506, 510 and 514.  The deep copy `y0` taken on
line 496 is never mutated; `aircraft.y` itself is overwritten four times. -/
def RK4trace (dy_dt : StateVec → ℚ → StateVec) (y : StateVec) (t dt : ℚ) : List StateVec :=
  let y0 := y
  let k0 := dy_dt y0 t
  let a1 := y0 + ((1/2 : ℚ) * dt) • k0
  let k1 := dy_dt a1 (t + (1/2 : ℚ) * dt)
  let a2 := y0 + ((1/2 : ℚ) * dt) • k1
  let k2 := dy_dt a2 (t + (1/2 : ℚ) * dt)
  let a3 := y0 + dt • k2
  let k3 := dy_dt a3 (t + dt)
  [a1, a2, a3, y0 + dt • (rk4Coef • (k0 + (2 : ℚ) • k1 + (2 : ℚ) • k2 + k3))]

/-- The RK4 step exactly as the specification words it:
`k0 = f(state, t); k1 = f(state + 0.5·dt·k0, t+0.5·dt);
k2 = f(state + 0.5·dt·k1, t+0.5·dt); k3 = f(state + dt·k2, t+dt);
result = state + (dt/6)·(k0 + 2·k1 + 2·k2 + k3)`. -/
def rk4_spec (f : StateVec → ℚ → StateVec) (y : StateVec) (t dt : ℚ) : StateVec :=
  let k0 := f y t
  let k1 := f (y + ((1/2 : ℚ) * dt) • k0) (t + (1/2 : ℚ) * dt)
  let k2 := f (y + ((1/2 : ℚ) * dt) • k1) (t + (1/2 : ℚ) * dt)
  let k3 := f (y + dt • k2) (t + dt)
  y + (dt/6) • (k0 + (2 : ℚ) • k1 + (2 : ℚ) • k2 + k3)

/-- A published scalar as the render process sees it: a Python float that is
either an ordinary (here: rational) number or NaN.  Comparisons follow IEEE
semantics: every comparison with NaN is false. -/
inductive FVal where
  | num : ℚ → FVal
  | nan : FVal
deriving DecidableEq

/-- Elementwise `== 0.0` as numpy computes it (line 334): NaN compares
unequal to zero. -/
def FVal.isZero : FVal → Bool
  | .num q => q = 0
  | .nan => false

/-- Whether the scalar is NaN, as `np.isnan` reports it (line 430). -/
def FVal.isNaN : FVal → Bool
  | .num _ => false
  | .nan => true

/-- The comparison `> 0.0` of line 353: false on NaN. -/
def FVal.gtZero : FVal → Bool
  | .num q => 0 < q
  | .nan => false

/-- The shared 16-scalar buffer `self._state_manager`: 13 state scalars,
then step size `dt`, simulation time `t`, wall-clock timestamp `t1`
(initialized on line 50, written on lines 227-230, read on lines 331-340). -/
abbrev Channel := Fin 16 → FVal

/-- The freshly constructed channel: `self._state_manager[:] = [0.0]*16`
(line 50). -/
def freshChannel : Channel := fun _ => .num 0

/-- Line 227: `self._state_manager[:13] = self._aircraft.y[:]` - one slice
assignment overwriting the 13 state scalars, leaving cells 13-15 alone. -/
def writeSlice13 (y : Fin 13 → FVal) (c : Channel) : Channel :=
  fun i => if h : (i : ℕ) < 13 then y ⟨i, h⟩ else c i

/-- One single-cell assignment `self._state_manager[j] = v`
(each of lines 228, 229, 230). -/
def writeCell (j : Fin 16) (v : FVal) (c : Channel) : Channel :=
  fun i => if i = j then v else c i

/-- The four separate write operations lines 227-230 perform, in program
order: the 13-scalar slice, then `dt`, then `t`, then `t1`. -/
def publishWrites (y : Fin 13 → FVal) (dt t t1 : FVal) : List (Channel → Channel) :=
  [writeSlice13 y, writeCell 13 dt, writeCell 14 t, writeCell 15 t1]

/-- Apply a list of write operations to the channel in order. -/
def applyWrites (ws : List (Channel → Channel)) (c : Channel) : Channel :=
  ws.foldl (fun acc w => w acc) c

/-- A complete publish: all four writes of lines 227-230 executed. -/
def publish (y : Fin 13 → FVal) (dt t t1 : FVal) (c : Channel) : Channel :=
  applyWrites (publishWrites y dt t t1) c

/-- The buffer a reader observes when it is scheduled after only the first
`k` of the four writes of a publish have executed (the channel has no lock,
so every `k` is observable). -/
def interruptedPublish (k : ℕ) (y : Fin 13 → FVal) (dt t t1 : FVal) (c : Channel) : Channel :=
  applyWrites ((publishWrites y dt t t1).take k) c

/-- One publish record: the values a physics step writes. -/
structure PubRec where
  y : Fin 13 → FVal
  dt : FVal
  t : FVal
  t1 : FVal

/-- A sequence of complete publishes applied to a channel. -/
def applyPubs (pubs : List PubRec) (c : Channel) : Channel :=
  pubs.foldl (fun acc p => publish p.y p.dt p.t p.t1 acc) c

/-- Line 331: the render side's copy of the 13 state scalars. -/
def readState (c : Channel) : Fin 13 → FVal :=
  fun i => c ⟨(i : ℕ), by omega⟩

/-- Line 334: `(y == 0.0).all()` - the all-zero sentinel test meaning "no
physics step has completed yet". -/
def stateAllZero (y : Fin 13 → FVal) : Bool :=
  decide (∀ i : Fin 13, (y i).isZero = true)

/-- The state vector with a nonzero quaternion component (indices 9-12), as
every real (normalized) state has. -/
def nonzeroQuat (y : Fin 13 → FVal) : Prop :=
  ∃ i : Fin 13, 9 ≤ (i : ℕ) ∧ (y i).isZero = false

/-- The observable outcome of one render step. -/
structure RenderStep where
  quit : Bool
  gameOver : Bool
  banner : Bool
  dataShown : Bool
  rendered : Bool
  earlyReturn : Bool
deriving DecidableEq

/-- The decision structure of `Simulator._update_graphics` (lines 317-439):
quit early-return (line 327), all-zero sentinel early-return (line 334),
ground-contact check `y[8] > 0.0` setting quit (lines 353-359), otherwise
render, with the physics-error banner shown exactly on `np.isnan(y[0])`
(lines 429-432) and the flight-data overlay on its `elif` (line 435).
`quitFlag` is `self._quit.value` on entry, `y` the published state read on
line 331, `flightData` is `self._flight_data.value`. -/
def updateGraphics (quitFlag : Bool) (y : Fin 13 → FVal) (flightData : Bool) : RenderStep :=
  if quitFlag then
    { quit := true, gameOver := false, banner := false, dataShown := false,
      rendered := false, earlyReturn := true }
  else if stateAllZero y then
    { quit := false, gameOver := false, banner := false, dataShown := false,
      rendered := false, earlyReturn := true }
  else if (y 8).gtZero then
    { quit := true, gameOver := true, banner := false, dataShown := false,
      rendered := false, earlyReturn := false }
  else
    { quit := false, gameOver := false, banner := (y 0).isNaN,
      dataShown := !(y 0).isNaN && flightData, rendered := true, earlyReturn := false }

/-- The control events one `get_input()` poll reports (line 236): each field
is the presence of the corresponding key event this iteration. -/
structure Inputs where
  pause : Bool
  data : Bool
  quit : Bool
  view : Bool
deriving DecidableEq

/-- The state the inner control loop of `_run_physics` (lines 234-257) reads
and writes: the shared flags, the local `self._paused`, `state_manager[13]`
(the published step size), the wall-clock reference `t0` of line 217/256,
and the simulation time `t` (which the inner loop never touches - keeping it
in the state makes that a provable statement). -/
structure InnerState where
  pauseFlag : Bool
  paused : Bool
  dataFlag : Bool
  quitFlag : Bool
  view : ℕ
  chanDt : ℚ
  t0 : ℚ
  t : ℚ

/-- Lines 237-244: toggle flags for each reported input event
(`self._num_views` is 2, line 71). -/
def applyInputs (inp : Inputs) (s : InnerState) : InnerState :=
  { s with
    pauseFlag := if inp.pause then !s.pauseFlag else s.pauseFlag,
    dataFlag := if inp.data then !s.dataFlag else s.dataFlag,
    quitFlag := if inp.quit then !s.quitFlag else s.quitFlag,
    view := if inp.view then (s.view + 1) % 2 else s.view }

/-- Lines 247-249: on the transition into pause, set the local `paused` flag
and report `dt = 0` to the channel ("the physics isn't stepping"). -/
def pauseEnter (s : InnerState) : InnerState :=
  if s.pauseFlag && !s.paused then { s with paused := true, chanDt := 0 } else s

/-- One iteration of the inner `while True` loop (lines 234-257): poll
inputs, handle the pause transition, and if the pause flag is clear perform
resume work (clear `paused`; in real-time mode reset the wall-clock
reference `t0` to the current time `now`, line 256) and break.  Returns the
new state and whether the loop broke out. -/
def innerStep (rt : Bool) (inp : Inputs) (now : ℚ) (s : InnerState) : InnerState × Bool :=
  let s1 := pauseEnter (applyInputs inp s)
  if s1.pauseFlag = false then
    (if s1.paused then { s1 with paused := false, t0 := if rt then now else s1.t0 } else s1, true)
  else (s1, false)

/-- Run the inner loop over a finite schedule of polled inputs (each paired
with the wall-clock time at which that iteration runs), stopping at the
first break.  Returns the final state and whether a break occurred. -/
def innerRun (rt : Bool) : List (Inputs × ℚ) → InnerState → InnerState × Bool
  | [], s => (s, false)
  | e :: evs, s =>
    let r := innerStep rt e.1 e.2 s
    if r.2 then (r.1, true) else innerRun rt evs r.1

/-- The state carried by the outer simulation loop (lines 204-230):
`aircraft.y`, the simulation time `t`, the quit flag, and the number of
publishes to the shared channel made so far (lines 227-230). -/
structure PhysState where
  y : StateVec
  t : ℚ
  quit : Bool
  published : ℕ
deriving DecidableEq

/-- One iteration body of the simulation loop in non-real-time mode with
rendering enabled and a controller reporting no input events (so the inner
control loop of lines 234-257 breaks immediately without touching the state;
`innerStep_no_events` below proves that): RK4-step the aircraft (line 208),
apply the external normalization hook `norm` (line 211), advance `t` by `dt`
(line 218) using the addition `add` (instantiated with exact `+`, or with
the binary64 `fladd` to model the Python float addition), and publish
(lines 227-230), counted in `published`. -/
def physBody (f : StateVec → ℚ → StateVec) (norm : StateVec → StateVec)
    (dt : ℚ) (add : ℚ → ℚ → ℚ) (s : PhysState) : PhysState :=
  { y := norm (RK4 f s.y s.t dt), t := add s.t dt, quit := s.quit,
    published := s.published + 1 }

/-- The outer simulation loop `while t <= self._tf and not self._quit.value`
(line 205), fuel-bounded: `none` means the fuel ran out with the loop still
running; `some s` is the state after the loop exited and executed line 260
(`self._quit.value = 1`). -/
def runLoop (f : StateVec → ℚ → StateVec) (norm : StateVec → StateVec)
    (dt : ℚ) (add : ℚ → ℚ → ℚ) (tf : ℚ) : ℕ → PhysState → Option PhysState
  | 0, s => if s.t ≤ tf ∧ s.quit = false then none else some { s with quit := true }
  | fuel+1, s =>
    if s.t ≤ tf ∧ s.quit = false then
      runLoop f norm dt add tf fuel (physBody f norm dt add s)
    else some { s with quit := true }

/-- The time/counter skeleton of the end-to-end scenario of §8 of the spec:
`final_time = 1.0`, `dt = 0.01`, time advanced by binary64 addition exactly
as Python's `t += self._dt` computes it.  Mirrors `runLoop` on the `t` and
`published` components (see `runLoop_zero_deriv`); kernel-computable. -/
def runCount : ℕ → ℚ → ℕ → Option (ℚ × ℕ)
  | 0, t, c => if t ≤ 1 then none else some (t, c)
  | fuel+1, t, c => if t ≤ 1 then runCount fuel (fladd t dt64) (c+1) else some (t, c)

/-- The initial state of the §8 end-to-end scenario: all scalars zero except
the quaternion `(1,0,0,0)`, i.e. `e0 = y[9] = 1`. -/
def scenarioState : StateVec := fun i => if i = 9 then 1 else 0

/-- The simulation time at which the §8 scenario's loop exits: the binary64
sum of one hundred copies of the double `0.01` added to `0.0`, which is
`1 + 3/2^52 > 1` (the classic accumulated upward rounding of `0.01`). -/
def scenarioEndTime : ℚ := Rat.divInt 4503599627370499 4503599627370496

/-- The 16-scalar buffer holding exactly one step's published values - what
the buffer contains once all four writes of lines 227-230 have executed. -/
def channelOf (y : Fin 13 → FVal) (dt t t1 : FVal) : Channel :=
  fun i =>
    if h : (i : ℕ) < 13 then y ⟨i, h⟩
    else if (i : ℕ) = 13 then dt
    else if (i : ℕ) = 14 then t
    else t1

/-- The stage-0 derivative `k0 = dy_dt(t)` of the RK4 step, evaluated at the
original (pre-step) state. -/
def rk4k0 (f : StateVec → ℚ → StateVec) (y : StateVec) (t dt : ℚ) : StateVec :=
  f y t

/-- The stage-1 derivative `k1`: evaluated at `y0 + 0.5*dt*k0`, whose base
is the original state `y0`, not the mutated current state. -/
def rk4k1 (f : StateVec → ℚ → StateVec) (y : StateVec) (t dt : ℚ) : StateVec :=
  f (y + ((1/2 : ℚ) * dt) • rk4k0 f y t dt) (t + (1/2 : ℚ) * dt)

/-- The stage-2 derivative `k2`: evaluated at `y0 + 0.5*dt*k1` with base
`y0`. -/
def rk4k2 (f : StateVec → ℚ → StateVec) (y : StateVec) (t dt : ℚ) : StateVec :=
  f (y + ((1/2 : ℚ) * dt) • rk4k1 f y t dt) (t + (1/2 : ℚ) * dt)

/-- The stage-3 derivative `k3`: evaluated at `y0 + dt*k2` with base `y0`. -/
def rk4k3 (f : StateVec → ℚ → StateVec) (y : StateVec) (t dt : ℚ) : StateVec :=
  f (y + dt • rk4k2 f y t dt) (t + dt)

/-- The constant all-ones state vector (a concrete constant derivative). -/
def oneVec : StateVec := fun _ => 1

/-- The constant all-halves state vector. -/
def halfVec : StateVec := fun _ => 1/2

/-- The channel after a first complete publish, all values of that step
being `1.0`. -/
def stepOneChan : Channel :=
  publish (fun _ => .num 1) (.num 1) (.num 1) (.num 1) freshChannel

/-- The buffer a reader observes when it runs after only the first of the
four writes of a second publish (all values `2.0`) has executed. -/
def tornChan : Channel :=
  interruptedPublish 1 (fun _ => .num 2) (.num 2) (.num 2) (.num 2) stepOneChan

/-- The channel after the second publish completes. -/
def stepTwoChan : Channel :=
  publish (fun _ => .num 2) (.num 2) (.num 2) (.num 2) stepOneChan

/-- A publish record whose state has the unit quaternion `(1,0,0,0)`
(`y[9] = 1`), as every normalized state does. -/
def quatPub : PubRec :=
  { y := fun i => if (i : ℕ) = 9 then .num 1 else .num 0,
    dt := .num 0, t := .num 0, t1 := .num 0 }

/-- A published state in ground contact: `y[8] = 1 > 0` (below ground in
the z-down sign convention), all other scalars zero. -/
def groundState : Fin 13 → FVal :=
  fun i => if (i : ℕ) = 8 then .num 1 else .num 0

/-- A published state with NaN airspeed component `u = y[0]` and vertical
position not indicating ground contact (`y[8] = 0`). -/
def nanLevelState : Fin 13 → FVal :=
  fun i => if (i : ℕ) = 0 then .nan else .num 0

/-- A published state with NaN airspeed `y[0]` that simultaneously
indicates ground contact (`y[8] = 1 > 0`). -/
def nanGroundState : Fin 13 → FVal :=
  fun i => if (i : ℕ) = 0 then .nan else if (i : ℕ) = 8 then .num 1 else .num 0

/-- A published state with NaN `y[0]` and `y[8] = 2 > 0`: `np.isnan(y[0])`
holds, yet the render step never reaches the banner check. -/
def nanCrashState : Fin 13 → FVal :=
  fun i => if (i : ℕ) = 0 then .nan else if (i : ℕ) = 8 then .num 2 else .num 0

/-! ## Supporting lemmas -/

/-- `qadd` is ordinary addition on `ℚ`. -/
theorem qadd_eq (a b : ℚ) : qadd a b = a + b := by
  rw [qadd]
  conv_rhs => rw [← Rat.num_divInt_den a, ← Rat.num_divInt_den b]
  rw [Rat.divInt_add_divInt _ _ (by exact_mod_cast a.den_nz) (by exact_mod_cast b.den_nz)]

/-- `qmul` is ordinary multiplication on `ℚ`. -/
theorem qmul_eq (a b : ℚ) : qmul a b = a * b := by
  rw [qmul]
  conv_rhs => rw [← Rat.num_divInt_den a, ← Rat.num_divInt_den b]
  rw [Rat.divInt_mul_divInt _ _ (by exact_mod_cast a.den_nz) (by exact_mod_cast b.den_nz)]

/-- `fladd` is binary64 rounding applied to the exact sum. -/
theorem fladd_eq (a b : ℚ) : fladd a b = fl (a + b) := by
  rw [fladd, qadd_eq]

/-- The source's combination coefficient literal
`0.16666666666666666666667` and `1/6` round to the same binary64 value, so
reading the coefficient as `1/6` is faithful to the compiled program. -/
theorem rk4CoefLiteral_binary64 : fl rk4CoefLiteral = fl (Rat.divInt 1 6) := by
  decide

/-- The binary64 value of the literal `0.01` is `5764607523034235 / 2^59`
(slightly above `1/100`). -/
theorem dt64_value : dt64 = Rat.divInt 5764607523034235 (2^59) := by
  decide

/-- With a controller reporting no input events and the pause flag clear,
one iteration of the inner control loop breaks immediately and does not
change the state - this is the mode in which `runLoop` models the outer
loop. -/
theorem innerStep_no_events (rt : Bool) (now : ℚ) (s : InnerState)
    (hp : s.pauseFlag = false) (hq : s.paused = false) :
    innerStep rt ⟨false, false, false, false⟩ now s = (s, true) := by
  cases s
  simp only at hp hq
  subst hp hq
  simp [innerStep, applyInputs, pauseEnter]

/-- Polling inputs never writes the simulation time. -/
theorem applyInputs_t (inp : Inputs) (s : InnerState) : (applyInputs inp s).t = s.t := rfl

/-- The pause-entry transition never writes the simulation time. -/
theorem pauseEnter_t (s : InnerState) : (pauseEnter s).t = s.t := by
  unfold pauseEnter
  split <;> rfl

/-- One inner-loop iteration never writes the simulation time. -/
theorem innerStep_t (rt : Bool) (inp : Inputs) (now : ℚ) (s : InnerState) :
    (innerStep rt inp now s).1.t = s.t := by
  by_cases h1 : (pauseEnter (applyInputs inp s)).pauseFlag = false
  · by_cases h2 : (pauseEnter (applyInputs inp s)).paused = true
    · simp [innerStep, h1, h2, pauseEnter_t, applyInputs_t]
    · simp [innerStep, h1, h2, pauseEnter_t, applyInputs_t]
  · simp [innerStep, h1, pauseEnter_t, applyInputs_t]

/-- An RK4 step on the zero derivative field returns the state unchanged. -/
theorem RK4_zero_deriv (y : StateVec) (t dt : ℚ) :
    RK4 (fun _ _ => (0 : StateVec)) y t dt = y := by
  funext i
  simp [RK4]

/-- After a complete publish, the render side's 13-scalar read returns
exactly the published state. -/
theorem readState_publish (y : Fin 13 → FVal) (dt t t1 : FVal) (c : Channel) :
    readState (publish y dt t t1 c) = y := by
  funext i
  have h13 : (i : ℕ) < 13 := i.isLt
  simp only [readState, publish, applyWrites, publishWrites, List.foldl,
    writeCell, writeSlice13, Fin.ext_iff]
  rw [if_neg (by omega), if_neg (by omega), if_neg (by omega), dif_pos h13]

/-- A state with a nonzero quaternion component fails the all-zero sentinel
test. -/
theorem stateAllZero_false_of_nonzeroQuat {y : Fin 13 → FVal}
    (h : nonzeroQuat y) : stateAllZero y = false := by
  obtain ⟨i, -, hz⟩ := h
  simp only [stateAllZero, decide_eq_false_iff_not, not_forall]
  exact ⟨i, by simp [hz]⟩

/-- On the §8 scenario (zero derivative, a normalization hook fixing the
initial state, binary64 time accumulation), the simulation loop coincides
with the time/counter skeleton `runCount`. -/
theorem runLoop_zero_deriv (norm : StateVec → StateVec)
    (hn : norm scenarioState = scenarioState) :
    ∀ (fuel : ℕ) (t : ℚ) (c : ℕ),
      runLoop (fun _ _ => 0) norm dt64 fladd 1 fuel ⟨scenarioState, t, false, c⟩ =
        (runCount fuel t c).map (fun p => ⟨scenarioState, p.1, true, p.2⟩) := by
  intro fuel
  induction fuel with
  | zero =>
    intro t c
    by_cases h : t ≤ (1 : ℚ) <;> simp [runLoop, runCount, h]
  | succ n ih =>
    intro t c
    by_cases h : t ≤ (1 : ℚ)
    · have hb : physBody (fun _ _ => 0) norm dt64 fladd ⟨scenarioState, t, false, c⟩ =
          ⟨scenarioState, fladd t dt64, false, c + 1⟩ := by
        simp [physBody, RK4_zero_deriv, hn]
      simp [runLoop, runCount, h, hb, ih]
    · simp [runLoop, runCount, h]

set_option maxRecDepth 100000 in
/-- Kernel evaluation of the scenario skeleton: starting from `t = 0`, the
loop guard `t <= 1.0` admits exactly 100 iterations of binary64
`t += 0.01`, exiting at `t = 1 + 3/2^52`. -/
theorem runCount_value : runCount 200 0 0 = some (scenarioEndTime, 100) := by
  decide

/-! ## Claim theorems -/

/-- C1: for every state `s`, derivative function `f`, time `t` and step
`dt`, the RK4 step of `_RK4` computes `k0 = f(s,t)`,
`k1 = f(s + 0.5*dt*k0, t + 0.5*dt)`, `k2 = f(s + 0.5*dt*k1, t + 0.5*dt)`,
`k3 = f(s + dt*k2, t + dt)` and returns
`s + (dt/6)*(k0 + 2*k1 + 2*k2 + k3)`; in particular, for a constant
derivative `f == c` one step of size `dt` yields exactly `s + c*dt`. -/
theorem c1_rk4_formula :
    (∀ (f : StateVec → ℚ → StateVec) (y : StateVec) (t dt : ℚ),
      RK4 f y t dt = rk4_spec f y t dt) ∧
    (∀ (y c : StateVec) (t dt : ℚ),
      RK4 (fun _ _ => c) y t dt = y + dt • c) := by
  constructor
  · intro f y t dt
    simp only [RK4, rk4_spec, rk4Coef, smul_smul]
    rw [(by ring : dt * (1/6 : ℚ) = dt / 6)]
  · intro y c t dt
    funext i
    simp only [RK4, rk4Coef, Pi.add_apply, Pi.smul_apply, smul_eq_mul]
    ring

/-- C7 counterexample: the claim "the caller's state is not mutated until
the final result is assigned" is false.  With the zero initial state, the
constant all-ones derivative and `dt = 1`, the very first intermediate
assignment of `_RK4` (line 502) overwrites the caller's `aircraft.y` with
the all-halves vector, which differs from the original state. -/
theorem c7_counterexample :
    (RK4trace (fun _ _ => oneVec) 0 0 1).head? = some halfVec ∧
      halfVec ≠ (0 : StateVec) := by
  constructor
  · simp only [RK4trace, List.head?]
    congr 1
    funext i
    simp [oneVec, halfVec]
  · intro h
    have h0 := congrFun h 0
    simp only [halfVec, Pi.zero_apply] at h0
    norm_num at h0

/-- C7 (amended): `_RK4` preserves a deep copy `y0` of the caller's state
and overwrites `aircraft.y` with each intermediate stage state, but every
stage derivative `k1..k3` is evaluated at a point whose base is the
original pre-step state `y0` (not the mutated current state), and the
caller's state after the call equals the original state plus the weighted
RK4 increment `(dt/6)*(k0 + 2*k1 + 2*k2 + k3)`. -/
theorem c7_original_state_base :
    ∀ (f : StateVec → ℚ → StateVec) (y : StateVec) (t dt : ℚ),
      RK4trace f y t dt =
        [y + ((1/2 : ℚ) * dt) • rk4k0 f y t dt,
         y + ((1/2 : ℚ) * dt) • rk4k1 f y t dt,
         y + dt • rk4k2 f y t dt,
         y + (dt/6) • (rk4k0 f y t dt + (2 : ℚ) • rk4k1 f y t dt +
            (2 : ℚ) • rk4k2 f y t dt + rk4k3 f y t dt)] := by
  intro f y t dt
  simp only [RK4trace, rk4k0, rk4k1, rk4k2, rk4k3, rk4Coef, smul_smul]
  rw [(by ring : dt * (1/6 : ℚ) = dt / 6)]

/-- C8: an RK4 step with `dt = 0` leaves the state unchanged - the final
result equals `s` exactly, and even the three intermediate assignments to
`aircraft.y` all equal `s` - which is what lets the real-time priming step
(line 193, `self._RK4(self._aircraft, self._t0, 0.0)`) measure wall-clock
cost without altering the simulation state. -/
theorem c8_zero_step :
    ∀ (f : StateVec → ℚ → StateVec) (y : StateVec) (t : ℚ),
      RK4 f y t 0 = y ∧ RK4trace f y t 0 = [y, y, y, y] := by
  intro f y t
  constructor
  · funext i
    simp [RK4]
  · simp [RK4trace]

/-- C2 counterexample: the claim that all 16 state-buffer scalars are
written atomically as a single unit is false.  After a first complete
publish of all-`1.0` values, a reader scheduled after only the first of the
four writes of a second publish (all-`2.0` values) observes a buffer mixing
the two steps: state scalar `y[0]` already holds `2.0` while the simulation
time cell (index 14) still holds `1.0`, so the observed buffer is neither
step's snapshot. -/
theorem c2_counterexample :
    tornChan 0 = FVal.num 2 ∧ tornChan 14 = FVal.num 1 ∧
      tornChan ≠ stepOneChan ∧ tornChan ≠ stepTwoChan := by
  refine ⟨rfl, rfl, fun h => ?_, fun h => ?_⟩
  · exact absurd (congrFun h 0) (by decide)
  · exact absurd (congrFun h 14) (by decide)

/-- C2 (amended): each physics step writes the 16 scalars in four separate
operations - the 13-state slice, then `dt`, then `t`, then `t1` (lines
227-230) - and the channel provides no locking, so a reader scheduled
between the operations can observe values from two different steps
(`c2_counterexample`); once all four writes have executed, the buffer holds
exactly the 16 scalars of the new step, independent of its prior
contents. -/
theorem c2_complete_publish_overwrites :
    ∀ (y : Fin 13 → FVal) (dt t t1 : FVal) (c : Channel),
      publish y dt t t1 c = channelOf y dt t t1 := by
  intro y dt t t1 c
  funext i
  simp only [publish, applyWrites, publishWrites, List.foldl, writeCell,
    writeSlice13, channelOf, Fin.ext_iff]
  by_cases h13 : (i : ℕ) < 13
  · rw [if_neg (by omega), if_neg (by omega), if_neg (by omega),
      dif_pos h13, dif_pos h13]
  · have h16 := i.isLt
    by_cases ha : (i : ℕ) = 13
    · rw [if_neg (by omega), if_neg (by omega), if_pos (by omega),
        dif_neg h13, if_pos ha]
    · by_cases hb : (i : ℕ) = 14
      · rw [if_neg (by omega), if_pos (by omega), dif_neg h13,
          if_neg ha, if_pos hb]
      · rw [if_pos (by omega), dif_neg h13, if_neg ha, if_neg hb]

/-- C3: a freshly constructed `SharedChannel` holds the all-zero 16-scalar
buffer and the render-side sentinel test reports "uninitialized"; the
reader's early return at line 334-335 fires exactly when the 13 read state
scalars are all zero; and after any nonempty sequence of publishes whose
states each have a nonzero quaternion component (as every normalized state
does), the sentinel test never again reports uninitialized. -/
theorem c3_sentinel :
    stateAllZero (readState freshChannel) = true ∧
    (∀ (y : Fin 13 → FVal) (fd : Bool),
      (updateGraphics false y fd).earlyReturn = stateAllZero y) ∧
    (∀ (pubs : List PubRec) (c : Channel), pubs ≠ [] →
      (∀ p ∈ pubs, nonzeroQuat p.y) →
      stateAllZero (readState (applyPubs pubs c)) = false) := by
  refine ⟨by decide, ?_, ?_⟩
  · intro y fd
    by_cases hz : stateAllZero y
    · simp [updateGraphics, hz]
    · by_cases hg : (y 8).gtZero <;> simp [updateGraphics, hz, hg]
  · intro pubs
    induction pubs with
    | nil => intro c hne _; exact absurd rfl hne
    | cons p rest ih =>
      intro c _ hq
      cases rest with
      | nil =>
        show stateAllZero (readState (publish p.y p.dt p.t p.t1 c)) = false
        rw [readState_publish]
        exact stateAllZero_false_of_nonzeroQuat (hq p (List.mem_cons_self p []))
      | cons p2 r2 =>
        show stateAllZero
          (readState (applyPubs (p2 :: r2) (publish p.y p.dt p.t p.t1 c))) = false
        exact ih (publish p.y p.dt p.t p.t1 c) (by simp)
          (fun q hqmem => hq q (List.mem_cons_of_mem p hqmem))

/-- C3 witness: one publish of a state with unit quaternion `(1,0,0,0)`
onto the fresh channel makes the sentinel test report initialized. -/
theorem c3_sentinel_witness :
    stateAllZero (readState (applyPubs [quatPub] freshChannel)) = false :=
  c3_sentinel.2.2 [quatPub] freshChannel (by simp)
    (by
      intro p hp
      simp only [List.mem_singleton] at hp
      subst hp
      exact ⟨⟨9, by omega⟩, by norm_num, by decide⟩)

/-- C4 (amended): observing a published state whose vertical position
indicates ground contact (`y[8] > 0.0`) always results in the quit flag
being set after the render step, whatever the other scalars and flags; a
published state with NaN airspeed component `y[0]` that does NOT also
indicate ground contact (observed with quit not already set) displays the
physics-error banner and leaves the quit flag unset.  (The unrestricted
claim is refuted by `c4_counterexample`: a state with NaN `y[0]` and
`y[8] > 0` sets quit and shows no banner.) -/
theorem c4_quit_asymmetry :
    (∀ (q fd : Bool) (y : Fin 13 → FVal), (y 8).gtZero = true →
      (updateGraphics q y fd).quit = true) ∧
    (∀ (fd : Bool) (y : Fin 13 → FVal), (y 0).isNaN = true →
      (y 8).gtZero = false →
      (updateGraphics false y fd).banner = true ∧
        (updateGraphics false y fd).quit = false) := by
  constructor
  · intro q fd y hg
    cases q with
    | true => rfl
    | false =>
      have hz : stateAllZero y = false := by
        simp only [stateAllZero, decide_eq_false_iff_not, not_forall]
        refine ⟨8, ?_⟩
        cases h8 : y 8 with
        | num v =>
          rw [h8] at hg
          simp only [FVal.gtZero, decide_eq_true_eq] at hg
          simp [FVal.isZero, hg.ne.symm]
        | nan => simp [FVal.isZero]
      simp [updateGraphics, hz, hg]
  · intro fd y hn hg
    have hz : stateAllZero y = false := by
      simp only [stateAllZero, decide_eq_false_iff_not, not_forall]
      refine ⟨0, ?_⟩
      cases h0 : y 0 with
      | num v => rw [h0] at hn; simp [FVal.isNaN] at hn
      | nan => simp [FVal.isZero]
    constructor <;> simp [updateGraphics, hz, hg, hn]

/-- C4 counterexample: a published state with NaN airspeed `y[0]` whose
vertical position also indicates ground contact (`y[8] = 1 > 0`) DOES set
the quit flag (and shows no banner), refuting "a published state with a
NaN airspeed component ... never sets the quit flag — the asymmetry holds
for every published state". -/
theorem c4_counterexample :
    (nanGroundState 0).isNaN = true ∧
      (updateGraphics false nanGroundState false).quit = true ∧
      (updateGraphics false nanGroundState false).banner = false := by
  decide

/-- C4 witness: ground contact alone sets quit; NaN airspeed at altitude
shows the banner and leaves quit unset. -/
theorem c4_quit_asymmetry_witness :
    (updateGraphics false groundState false).quit = true ∧
      (updateGraphics false nanLevelState false).banner = true ∧
      (updateGraphics false nanLevelState false).quit = false :=
  ⟨c4_quit_asymmetry.1 false false groundState (by decide),
    (c4_quit_asymmetry.2 false nanLevelState (by decide) (by decide)).1,
    (c4_quit_asymmetry.2 false nanLevelState (by decide) (by decide)).2⟩

/-- C10 (amended): the render-side NaN detection tests only `y[0]` - in a
render step the physics-error banner is shown if and only if quit was not
already set, the published state is not the all-zero sentinel, `y[8]` does
not indicate ground contact, and `np.isnan(y[0])` holds.  In particular a
NaN appearing only in the other 12 scalars never triggers the banner; but
contrary to the claim's "exactly when y[0] is NaN", a NaN `y[0]` combined
with ground contact shows no banner (`c10_counterexample`). -/
theorem c10_banner_only_tests_first_scalar :
    ∀ (q fd : Bool) (y : Fin 13 → FVal),
      (updateGraphics q y fd).banner =
        (!q && !stateAllZero y && !(y 8).gtZero && (y 0).isNaN) := by
  intro q fd y
  cases q with
  | true => rfl
  | false =>
    by_cases hz : stateAllZero y
    · simp [updateGraphics, hz]
    · by_cases hg : (y 8).gtZero <;>
        simp [updateGraphics, hz, hg]

/-- C10 counterexample: a state with `np.isnan(y[0])` true but `y[8] = 2 >
0` shows no banner (the ground-contact branch runs instead), refuting "the
banner is shown exactly when y[0] is NaN". -/
theorem c10_counterexample :
    (nanCrashState 0).isNaN = true ∧
      (updateGraphics false nanCrashState false).banner = false := by
  decide

/-- The inner control loop never writes the simulation time, over any
schedule of polled inputs. -/
theorem innerRun_t (rt : Bool) (evs : List (Inputs × ℚ)) (s : InnerState) :
    (innerRun rt evs s).1.t = s.t := by
  induction evs generalizing s with
  | nil => rfl
  | cons e evs ih =>
    simp only [innerRun]
    by_cases hb : (innerStep rt e.1 e.2 s).2 = true
    · simp [hb, innerStep_t]
    · simp [hb, ih, innerStep_t]

/-- One inner-loop iteration preserves the invariant "while locally paused,
the published step size is zero". -/
theorem innerStep_pause_inv (rt : Bool) (inp : Inputs) (now : ℚ)
    (s : InnerState) (hinv : s.paused = true → s.chanDt = 0) :
    (innerStep rt inp now s).1.paused = true →
      (innerStep rt inp now s).1.chanDt = 0 := by
  cases inp with
  | mk ip idt iq iv =>
    cases s with
    | mk pf pa df qf v cd t0 t =>
      simp only at hinv
      cases ip <;> cases pf <;> cases pa <;>
        simp_all [innerStep, pauseEnter, applyInputs]

/-- If an inner-loop iteration does not break out (the loop keeps spinning
because the pause flag is still set), the published step size is zero
afterwards. -/
theorem innerStep_paused_reports_zero (rt : Bool) (inp : Inputs) (now : ℚ)
    (s : InnerState) (hinv : s.paused = true → s.chanDt = 0)
    (hnb : (innerStep rt inp now s).2 = false) :
    (innerStep rt inp now s).1.chanDt = 0 := by
  cases inp with
  | mk ip idt iq iv =>
    cases s with
    | mk pf pa df qf v cd t0 t =>
      simp only at hinv
      cases ip <;> cases pf <;> cases pa <;>
        simp_all [innerStep, pauseEnter, applyInputs]

/-- Two pause-key iterations in a row, starting with the pause flag clear:
the first iteration does not break (the loop is paused), the second breaks
with the pause flag back at its original cleared value. -/
theorem innerStep_double_toggle (rt : Bool) (i1 i2 : Inputs) (n1 n2 : ℚ)
    (s : InnerState) (h0 : s.pauseFlag = false) (h1 : i1.pause = true)
    (h2 : i2.pause = true) :
    (innerStep rt i1 n1 s).2 = false ∧
      (innerStep rt i2 n2 (innerStep rt i1 n1 s).1).1.pauseFlag = false := by
  cases i1 with
  | mk ip1 idt1 iq1 iv1 =>
    cases i2 with
    | mk ip2 idt2 iq2 iv2 =>
      cases s with
      | mk pf pa df qf v cd t0 t =>
        simp only at h0 h1 h2
        subst h0 h1 h2
        cases pa <;> simp [innerStep, pauseEnter, applyInputs]

/-- On the iteration that resumes from pause in real-time mode, the
wall-clock reference `t0` is reset to the current time (line 256), so the
paused duration is not charged against the next `dt`. -/
theorem innerStep_resume_resets_t0 (inp : Inputs) (now : ℚ) (s : InnerState)
    (hpa : s.paused = true) (hbk : (innerStep true inp now s).2 = true) :
    (innerStep true inp now s).1.t0 = now := by
  cases inp with
  | mk ip idt iq iv =>
    cases s with
    | mk pf pa df qf v cd t0 t =>
      simp only at hpa
      subst hpa
      cases ip <;> cases pf <;>
        simp_all [innerStep, pauseEnter, applyInputs]

/-- C5: while the pause flag is set the physics loop spins in its inner
control loop, which (i) never advances simulation time over any schedule of
inputs; (ii) preserves and (iii) establishes "reported dt = 0" on every
iteration that keeps spinning (given the invariant that being locally
paused implies dt was reported 0, established at the pause transition on
line 249); (iv) toggling pause twice in a row from the unpaused state does
not break on the first iteration and restores the pause flag (simulation
time is untouched by (i)); and (v) on the breaking (resume) iteration in
real-time mode the wall-clock reference `t0` is reset to the current time,
so the paused duration is not charged against the next `dt`. -/
theorem c5_pause_semantics :
    (∀ (rt : Bool) (evs : List (Inputs × ℚ)) (s : InnerState),
      (innerRun rt evs s).1.t = s.t) ∧
    (∀ (rt : Bool) (inp : Inputs) (now : ℚ) (s : InnerState),
      (s.paused = true → s.chanDt = 0) →
      (innerStep rt inp now s).1.paused = true →
        (innerStep rt inp now s).1.chanDt = 0) ∧
    (∀ (rt : Bool) (inp : Inputs) (now : ℚ) (s : InnerState),
      (s.paused = true → s.chanDt = 0) →
      (innerStep rt inp now s).2 = false →
        (innerStep rt inp now s).1.chanDt = 0) ∧
    (∀ (rt : Bool) (i1 i2 : Inputs) (n1 n2 : ℚ) (s : InnerState),
      s.pauseFlag = false → i1.pause = true → i2.pause = true →
      (innerStep rt i1 n1 s).2 = false ∧
        (innerStep rt i2 n2 (innerStep rt i1 n1 s).1).1.pauseFlag = false ∧
        (innerStep rt i2 n2 (innerStep rt i1 n1 s).1).1.t = s.t) ∧
    (∀ (inp : Inputs) (now : ℚ) (s : InnerState),
      s.paused = true → (innerStep true inp now s).2 = true →
        (innerStep true inp now s).1.t0 = now) :=
  ⟨innerRun_t,
   innerStep_pause_inv,
   innerStep_paused_reports_zero,
   fun rt i1 i2 n1 n2 s h0 h1 h2 =>
     ⟨(innerStep_double_toggle rt i1 i2 n1 n2 s h0 h1 h2).1,
      (innerStep_double_toggle rt i1 i2 n1 n2 s h0 h1 h2).2,
      by rw [innerStep_t, innerStep_t]⟩,
   innerStep_resume_resets_t0⟩

/-- C5 witness: concrete instances - a no-event spin while paused keeps the
reported dt at 0 and the simulation time at its value; a resume at
wall-clock time 42 resets `t0` to 42. -/
theorem c5_pause_semantics_witness :
    (innerRun true [] ⟨true, true, false, false, 0, 0, 0, 7⟩).1.t = 7 ∧
      (innerStep true ⟨false, false, false, false⟩ 3
        ⟨true, true, false, false, 0, 0, 0, 7⟩).1.chanDt = 0 ∧
      (innerStep true ⟨true, false, false, false⟩ 42
        ⟨true, true, false, false, 0, 0, 0, 7⟩).1.t0 = 42 :=
  ⟨c5_pause_semantics.1 true [] ⟨true, true, false, false, 0, 0, 0, 7⟩,
   c5_pause_semantics.2.2.1 true ⟨false, false, false, false⟩ 3
     ⟨true, true, false, false, 0, 0, 0, 7⟩ (fun _ => rfl) rfl,
   c5_pause_semantics.2.2.2.2 ⟨true, false, false, false⟩ 42
     ⟨true, true, false, false, 0, 0, 0, 7⟩ rfl rfl⟩

/-- If the fuel-bounded simulation loop exits (returns `some`), the final
state has the quit flag set - line 260 runs on every exit path. -/
theorem runLoop_exit_quit (f : StateVec → ℚ → StateVec)
    (norm : StateVec → StateVec) (dt : ℚ) (add : ℚ → ℚ → ℚ) (tf : ℚ) :
    ∀ (fuel : ℕ) (s s' : PhysState),
      runLoop f norm dt add tf fuel s = some s' → s'.quit = true := by
  intro fuel
  induction fuel with
  | zero =>
    intro s s' h
    by_cases hg : s.t ≤ tf ∧ s.quit = false
    · simp [runLoop, hg] at h
    · simp only [runLoop, if_neg hg, Option.some.injEq] at h
      rw [← h]
  | succ n ih =>
    intro s s' h
    by_cases hg : s.t ≤ tf ∧ s.quit = false
    · rw [runLoop, if_pos hg] at h
      exact ih _ _ h
    · simp only [runLoop, if_neg hg, Option.some.injEq] at h
      rw [← h]

/-- C6: the simulation loop's guard is `t <= tf and not quit` (line 205):
whenever `t > tf` or the quit flag is set the loop exits immediately and the
result is the current state with the quit flag set (idempotently - it is
set whether or not it already was, line 260); whenever the guard holds the
loop performs one more body iteration; and every exit, whatever triggered
it, has the quit flag set in the final state. -/
theorem c6_termination :
    ∀ (f : StateVec → ℚ → StateVec) (norm : StateVec → StateVec) (dt : ℚ)
      (add : ℚ → ℚ → ℚ) (tf : ℚ) (fuel : ℕ) (s : PhysState),
      (∀ s', runLoop f norm dt add tf fuel s = some s' → s'.quit = true) ∧
      (¬(s.t ≤ tf ∧ s.quit = false) →
        runLoop f norm dt add tf fuel s = some { s with quit := true }) ∧
      (s.t ≤ tf ∧ s.quit = false →
        runLoop f norm dt add tf (fuel + 1) s =
          runLoop f norm dt add tf fuel (physBody f norm dt add s)) := by
  intro f norm dt add tf fuel s
  refine ⟨fun s' => runLoop_exit_quit f norm dt add tf fuel s s', ?_, ?_⟩
  · intro hg
    cases fuel with
    | zero => rw [runLoop, if_neg hg]
    | succ n => rw [runLoop, if_neg hg]
  · intro hg
    rw [runLoop, if_pos hg]

/-- C6 witness: a state already past the final time (`t = 2 > 1 = tf`) with
the quit flag clear makes the loop exit at once with quit set. -/
theorem c6_termination_witness :
    runLoop (fun _ _ => 0) id 1 qadd 1 3 ⟨scenarioState, 2, false, 0⟩ =
      some ⟨scenarioState, 2, true, 0⟩ :=
  (c6_termination (fun _ _ => 0) id 1 qadd 1 3 ⟨scenarioState, 2, false, 0⟩).2.1
    (by norm_num)

/-- C9: the §8 end-to-end scenario - final time `1.0`, fixed `dt = 0.01`
(non-real-time), zero derivative, initial state all-zero except quaternion
`(1,0,0,0)`, time advanced by binary64 addition exactly as Python's
`t += self._dt` computes it, a normalization hook fixing the (already unit)
initial state - runs to completion with the final state equal to the
initial state and exactly 100 publishes: the accumulated upward rounding of
the double `0.01` makes `t` exceed `1.0` after exactly 100 iterations (in
exact arithmetic it would take 101). -/
theorem c9_end_to_end :
    ∀ norm : StateVec → StateVec, norm scenarioState = scenarioState →
      runLoop (fun _ _ => 0) norm dt64 fladd 1 200 ⟨scenarioState, 0, false, 0⟩ =
        some ⟨scenarioState, scenarioEndTime, true, 100⟩ := by
  intro norm hn
  rw [runLoop_zero_deriv norm hn 200 0 0, runCount_value]
  rfl

/-- C9 witness: with the identity normalization hook (the quaternion
`(1,0,0,0)` is already unit) the scenario computes to exactly 100 publishes
and the unchanged initial state. -/
theorem c9_end_to_end_witness :
    runLoop (fun _ _ => 0) id dt64 fladd 1 200 ⟨scenarioState, 0, false, 0⟩ =
      some ⟨scenarioState, scenarioEndTime, true, 100⟩ :=
  c9_end_to_end id rfl

end Pylot
